import Mathlib

/-!
Verification of the analytics session/event model and metrics-aggregation
engine of the `finding-me` repository.

The development shallowly embeds the TypeScript/SQL code:

* `src/lib/analytics-d1.ts` — the D1-backed `Analytics` class
  (`handleTracking`, `getMetrics`), embedded over an explicit `Store`.
* The edge tracking route (`getOrCreateSession`, pageview recording) found in
  the unnamed route files, embedded over `Store2`.
* The file-backed `Analytics` variant with required-field validation,
  embedded as `handleTracking20` over `Store20`.
* The retention query of the metrics dashboard route, embedded as
  `retentionOf`.
* The pure statistics utility (`calculateConfidence` etc.), embedded over ℝ.

SQL `datetime`/`JULIANDAY` arithmetic is modelled with natural-number
millisecond clocks supplied by the caller; `crypto.randomUUID()` is modelled
by a caller-supplied fresh identifier; SQL `NULL` is modelled by `Option`.
-/

namespace FindingMe

/-- JavaScript string truthiness: `undefined`/`null` and `""` are falsy. -/
def strTruthy : Option String → Bool
  | none => false
  | some s => s ≠ ""

/-- JavaScript number truthiness: `undefined`/`null` and `0` are falsy. -/
def natTruthy : Option Nat → Bool
  | none => false
  | some n => n ≠ 0

/-- JavaScript `x || null` for an optional numeric field: `0` collapses to null. -/
def ratOrNull : Option ℚ → Option ℚ
  | none => none
  | some q => if q = 0 then none else some q

/-- JavaScript `x || null` for an optional string field: `""` collapses to null. -/
def strOrNull : Option String → Option String
  | none => none
  | some s => if s = "" then none else some s

/-- JavaScript `parseInt` on a decimal string, `none` standing for `NaN`. -/
def parseIntJS (s : String) : Option Int := s.toInt?

/-! ## Data model of the D1-backed `Analytics` class (`src/lib/analytics-d1.ts`) -/

/-- A row of the `sessions` table used by the D1 `Analytics` class. -/
structure SessionRow where
  session_id : String
  start_time : Nat
  end_time : Option Nat := none
  user_agent : Option String := none
  ip_address : Option String := none
  referrer : Option String := none
  device_type : Option String := none
  country : Option String := none
  city : Option String := none
  latitude : Option ℚ := none
  longitude : Option ℚ := none
  deriving Repr, DecidableEq

/-- A row of the `page_views` table used by the D1 `Analytics` class. -/
structure PageViewRow where
  id : Nat
  session_id : String
  page : String
  timestamp : Nat
  scroll_depth : Option Int := none
  time_spent : Option Nat := none
  ttfb : Option ℚ := none
  fcp : Option ℚ := none
  lcp : Option ℚ := none
  cls : Option ℚ := none
  fid : Option ℚ := none
  deriving Repr, DecidableEq

/-- A row of the `events` table used by the D1 `Analytics` class. -/
structure EventRow where
  id : Nat
  session_id : String
  event_name : String
  element : Option String := none
  href : Option String := none
  timestamp : Nat
  deriving Repr, DecidableEq

/-- The relational store backing the D1 `Analytics` class; `nextPvId` and
`nextEventId` model the `AUTOINCREMENT` primary keys. -/
structure Store where
  sessions : List SessionRow
  page_views : List PageViewRow
  events : List EventRow
  nextPvId : Nat := 0
  nextEventId : Nat := 0
  deriving Repr, DecidableEq

/-- The argument record of `Analytics.handleTracking` (interface `TrackingData`). -/
structure TrackingData where
  sessionId : Option String
  event : Option String := none
  page : Option String := none
  scrollDepth : Option String := none
  element : Option String := none
  href : Option String := none
  sectionField : Option String := none -- named `section` in the source (a Lean keyword)
  timeSpent : Option Nat := none
  timestamp : Option Nat := none
  userAgent : Option String := none
  ipAddress : Option String := none
  country : Option String := none
  city : Option String := none
  latitude : Option ℚ := none
  longitude : Option ℚ := none
  referrer : Option String := none
  deviceType : Option String := none
  ttfb : Option ℚ := none
  fcp : Option ℚ := none
  lcp : Option ℚ := none
  cls : Option ℚ := none
  fid : Option ℚ := none

/-- Computes `data.timestamp || Date.now()` (a zero timestamp is falsy in JS). -/
def effectiveTimestamp (data : TrackingData) (now : Nat) : Nat :=
  match data.timestamp with
  | some t => if t = 0 then now else t
  | none => now

/-- The page-view of a session with the greatest timestamp
(`SELECT id FROM page_views WHERE session_id = ? ORDER BY timestamp DESC LIMIT 1`);
among equal timestamps the later-inserted row is taken. -/
def latestPv (store : Store) (sid : String) : Option PageViewRow :=
  (store.page_views.filter (fun p => p.session_id = sid)).foldl
    (fun acc p =>
      match acc with
      | none => some p
      | some q => if q.timestamp ≤ p.timestamp then some p else some q)
    none

/-- Embeds `UPDATE page_views SET time_spent = ? WHERE session_id = ? AND id = (latest)`. -/
def setLatestPvTimeSpent (store : Store) (sid : String) (v : Nat) : Store :=
  match latestPv store sid with
  | none => store
  | some target =>
      { store with
        page_views := store.page_views.map (fun p =>
          if p.session_id = sid ∧ p.id = target.id then { p with time_spent := some v } else p) }

/-- The `COALESCE(?, col)` back-fill of performance metrics onto the latest
page-view of the session (`new` wins only when non-null). -/
def coalescePerf (store : Store) (sid : String) (data : TrackingData) : Store :=
  match latestPv store sid with
  | none => store
  | some target =>
      { store with
        page_views := store.page_views.map (fun p =>
          if p.session_id = sid ∧ p.id = target.id then
            { p with
              ttfb := (ratOrNull data.ttfb).orElse (fun _ => p.ttfb)
              fcp := (ratOrNull data.fcp).orElse (fun _ => p.fcp)
              lcp := (ratOrNull data.lcp).orElse (fun _ => p.lcp)
              cls := (ratOrNull data.cls).orElse (fun _ => p.cls)
              fid := (ratOrNull data.fid).orElse (fun _ => p.fid) }
          else p) }

/-- Embedding of `Analytics.handleTracking` from `src/lib/analytics-d1.ts`.
A thrown `Error` is modelled as `Except.error` of its message; an error
result leaves no trace in the store (the code throws before any write). -/
def handleTracking (store : Store) (now : Nat) (data : TrackingData) :
    Except String Store :=
  if ¬ strTruthy data.sessionId then .error "Missing required session ID"
  else
    let sid := data.sessionId.getD ""
    let timestamp := effectiveTimestamp data now
    let existingSession := store.sessions.find? (fun s => s.session_id = sid)
    if existingSession.isNone ∧ data.event ≠ some "session_start" then
      .error "Invalid session"
    else if data.event = some "session_start" then
      match existingSession with
      | some _ => .ok store
      | none =>
          .ok { store with
                sessions := store.sessions ++
                  [{ session_id := sid
                     start_time := timestamp
                     user_agent := strOrNull data.userAgent
                     ip_address := strOrNull data.ipAddress
                     referrer := strOrNull data.referrer
                     device_type := strOrNull data.deviceType
                     country := strOrNull data.country
                     city := strOrNull data.city
                     latitude := ratOrNull data.latitude
                     longitude := ratOrNull data.longitude }] }
    else if data.event = some "session_end" then
      let store := { store with
        sessions := store.sessions.map (fun s =>
          if s.session_id = sid then { s with end_time := some timestamp } else s) }
      let store :=
        if natTruthy data.timeSpent then
          setLatestPvTimeSpent store sid (data.timeSpent.getD 0)
        else store
      .ok store
    else
      let store :=
        if strTruthy data.page then
          let store :=
            if natTruthy data.timeSpent then
              setLatestPvTimeSpent store sid (data.timeSpent.getD 0)
            else store
          { store with
            page_views := store.page_views ++
              [{ id := store.nextPvId
                 session_id := sid
                 page := data.page.getD ""
                 timestamp := timestamp
                 scroll_depth :=
                   if strTruthy data.scrollDepth then parseIntJS (data.scrollDepth.getD "")
                   else none
                 time_spent := if natTruthy data.timeSpent then data.timeSpent else none
                 ttfb := ratOrNull data.ttfb
                 fcp := ratOrNull data.fcp
                 lcp := ratOrNull data.lcp
                 cls := ratOrNull data.cls
                 fid := ratOrNull data.fid }]
            nextPvId := store.nextPvId + 1 }
        else store
      let store :=
        if strTruthy data.event ∧ data.event ≠ some "session_start" ∧
            data.event ≠ some "session_end" then
          let store := { store with
            events := store.events ++
              [{ id := store.nextEventId
                 session_id := sid
                 event_name := data.event.getD ""
                 element := strOrNull data.element
                 href := strOrNull data.href
                 timestamp := timestamp }]
            nextEventId := store.nextEventId + 1 }
          if data.event = some "performance" then coalescePerf store sid data else store
        else store
      .ok store

/-- JavaScript `message.startsWith(prefix)`, modelled character-wise (the
core `String.startsWith` is not kernel-reducible). -/
def strStartsWith (s pre : String) : Bool := pre.data.isPrefixOf s.data

/-- HTTP status selection of `src/app/api/analytics/tracking/route.ts`:
200 on success, 400 for `Missing required …` messages, 403 for
`Invalid session`, 500 otherwise. -/
def statusOf {α : Type} : Except String α → Nat
  | .ok _ => 200
  | .error m =>
      if strStartsWith m "Missing required" then 400
      else if m = "Invalid session" then 403
      else 500

/-! ## The `getMetrics` aggregation of the D1 `Analytics` class

Only the queries some claim refers to are embedded (total visitors, bounce
rate, click-through rates, conversion rate); the remaining queries of
`getMetrics` (top pages, average time, device and country breakdowns) are
display-only rollups no claim mentions. -/

/-- The `MetricsTimeframe` interface of `analytics-d1.ts`. -/
structure MetricsTimeframe where
  startTime : Option Nat := none
  endTime : Option Nat := none

/-- The source's `getTimeframeCondition` produces a non-empty SQL condition string iff the
timeframe is present with a truthy bound (a zero bound is falsy in JS). -/
def tfActive : Option MetricsTimeframe → Bool
  | none => false
  | some tf => natTruthy tf.startTime ∨ natTruthy tf.endTime

/-- The predicate the generated `field >= start AND field <= end` condition
imposes on a (non-null) column value. -/
def tfCond (tf : Option MetricsTimeframe) (t : Nat) : Bool :=
  match tf with
  | none => true
  | some tf =>
      (if natTruthy tf.startTime then tf.startTime.getD 0 ≤ t else true) ∧
      (if natTruthy tf.endTime then t ≤ tf.endTime.getD 0 else true)

/-- SQLite `ROUND(x, 2)`: round half away from zero is modelled by `round`
over ℚ (the SQL value is a double; ties do not occur in the claims below). -/
def sqlRound2 (q : ℚ) : ℚ := (round (q * 100) : ℚ) / 100

/-- The `session_page_counts` CTE of the bounce-rate query: per surviving
session row, `COUNT(pv.id)` over the `LEFT JOIN` with `page_views`.

When the timeframe condition is non-empty it is a `WHERE` applied after the
left join, so a null-extended row (a session with no page-view in the window)
fails `pv.timestamp >= …` and the session drops out of the CTE entirely;
without a timeframe every session survives and a session with no page-views
gets `COUNT(pv.id) = 0` (`COUNT` of a null column counts non-null values). -/
def sessionPvCounts (store : Store) (tf : Option MetricsTimeframe) : List Nat :=
  if tfActive tf then
    (store.sessions.filter (fun s => tfCond tf s.start_time)).filterMap (fun s =>
      let c := (store.page_views.filter
        (fun p => p.session_id = s.session_id ∧ tfCond tf p.timestamp)).length
      if c = 0 then none else some c)
  else
    store.sessions.map (fun s =>
      (store.page_views.filter (fun p => p.session_id = s.session_id)).length)

/-- The bounce-rate query result (`none` = SQL `NULL`).
`SUM(CASE WHEN page_count = 1 OR page_count IS NULL THEN 1 ELSE 0 END)`:
`COUNT(pv.id)` is never `NULL` per group, so the `IS NULL` disjunct of the
source can never fire and only sessions with exactly one page-view count;
with an empty CTE the `SUM` and the `NULLIF` division are `NULL`. -/
def bounceRateQ (store : Store) (tf : Option MetricsTimeframe) : Option ℚ :=
  let counts := sessionPvCounts store tf
  let bounced : ℚ := ((counts.filter (fun c => c = 1)).length : ℚ)
  if counts.length = 0 then none
  else some (sqlRound2 (bounced / (counts.length : ℚ) * 100))

/-- Embeds `bounceRate: bounceRate?.bounce_rate || 0` in the `getMetrics` return. -/
def getMetricsBounceRate (store : Store) (tf : Option MetricsTimeframe) : ℚ :=
  (bounceRateQ store tf).getD 0

/-- Embeds `SELECT COUNT(DISTINCT session_id) FROM sessions` with the timeframe
condition on `start_time` (the `totalVisitors` query, also the denominator
subquery of the CTR and conversion-rate queries). -/
def totalVisitorsOf (store : Store) (tf : Option MetricsTimeframe) : Nat :=
  ((store.sessions.filter (fun s => tfCond tf s.start_time)).map
    (fun s => s.session_id)).dedup.length

/-- The conversion-rate query (`none` = SQL `NULL` from `NULLIF`): distinct
sessions having a `conversion` event joined with an in-window session,
divided by the distinct in-window session count. -/
def conversionRateQ (store : Store) (tf : Option MetricsTimeframe) : Option ℚ :=
  let conv := ((store.events.filter (fun e => e.event_name = "conversion" ∧
      store.sessions.any (fun s => s.session_id = e.session_id ∧ tfCond tf s.start_time))).map
    (fun e => e.session_id)).dedup.length
  let total := totalVisitorsOf store tf
  if total = 0 then none
  else some (sqlRound2 ((conv : ℚ) / (total : ℚ) * 100))

/-- Embeds `conversionRate: conversions?.conversion_rate || 0` in the return. -/
def getMetricsConversionRate (store : Store) (tf : Option MetricsTimeframe) : ℚ :=
  (conversionRateQ store tf).getD 0

/-- A row of the click-through-rate query result. -/
structure CtrRow where
  element : Option String
  clicks : Nat
  ctr : Option ℚ
  deriving Repr, DecidableEq

/-- The click-through-rate query: `click` events joined with in-window
sessions, grouped by `element`, ordered by clicks descending, `LIMIT 10`;
`ctr` is `NULL` (`NULLIF`) when the distinct session count is zero. -/
def clickThroughRatesOf (store : Store) (tf : Option MetricsTimeframe) : List CtrRow :=
  let clicks := store.events.filter (fun e => e.event_name = "click" ∧
    store.sessions.any (fun s => s.session_id = e.session_id ∧ tfCond tf s.start_time))
  let total := totalVisitorsOf store tf
  let grouped := (clicks.map (fun e => e.element)).dedup.map (fun el =>
    let n := (clicks.filter (fun e => e.element = el)).length
    { element := el
      clicks := n
      ctr := if total = 0 then none
             else some (sqlRound2 ((n : ℚ) / (total : ℚ) * 100)) : CtrRow })
  (grouped.mergeSort (fun a b => b.clicks ≤ a.clicks)).take 10

/-! ## The edge tracking route (`getOrCreateSession` + pageview recording)

Embeds the route pair found in the unnamed source files: sessions carry the
derived fields (`page_count`, `is_bounce`, `is_returning`, fingerprint and
geo columns), page-views carry `entry_page`/`exit_page`/`time_on_page_ms`.
`datetime('now')` comparisons are modelled on millisecond clocks:
`start_time > datetime('now','-30 minutes')` becomes
`now < start_time + sessionWindowMs`. -/

/-- A row of the `sessions` table of the edge pipeline. -/
structure Sess2 where
  session_id : String
  start_time : Nat
  end_time : Nat
  page_count : Nat
  is_bounce : Bool
  is_returning : Bool
  device : String
  browser : String
  os : String
  country : String
  city : String
  referrer : String
  total_time_ms : Int
  deriving Repr, DecidableEq

/-- A row of the `pageviews` table of the edge pipeline. -/
structure Pv2 where
  id : Nat
  session_id : String
  page_path : String
  timestamp : Nat
  entry_page : Bool
  exit_page : Bool
  time_on_page_ms : Int
  max_scroll_percentage : Nat
  deriving Repr, DecidableEq

/-- The store of the edge pipeline. -/
structure Store2 where
  sessions : List Sess2
  pageviews : List Pv2
  nextPvId : Nat := 0
  deriving Repr, DecidableEq

/-- The 30-minute session-inactivity window, in milliseconds. -/
def sessionWindowMs : Nat := 30 * 60 * 1000

/-- The trailing 30-day window for returning-visitor detection, in ms. -/
def returningWindowMs : Nat := 30 * 24 * 60 * 60 * 1000

/-- The needle list occurs inside the haystack list. -/
def charsInclude (n : List Char) : List Char → Bool
  | [] => n.isEmpty
  | c :: rest => n.isPrefixOf (c :: rest) || charsInclude n rest

/-- JavaScript `haystack.includes(needle)`: the needle occurs as a substring
(modelled character-wise so the kernel can evaluate it). -/
def strIncludes (h n : String) : Bool := charsInclude n.data h.data

/-- The `getBrowser` user-agent sniffing of the tracking routes. -/
def getBrowser (ua : String) : String :=
  if strIncludes ua "Firefox" then "Firefox"
  else if strIncludes ua "Chrome" then "Chrome"
  else if strIncludes ua "Safari" then "Safari"
  else if strIncludes ua "Edge" then "Edge"
  else if strIncludes ua "Opera" then "Opera"
  else "Unknown"

/-- The `getOS` user-agent sniffing of the tracking routes. -/
def getOS (ua : String) : String :=
  if strIncludes ua "Windows" then "Windows"
  else if strIncludes ua "Mac OS" then "macOS"
  else if strIncludes ua "Linux" then "Linux"
  else if strIncludes ua "Android" then "Android"
  else if strIncludes ua "iOS" then "iOS"
  else "Unknown"

/-- Computes `userAgent.includes('Mobile') ? 'mobile' : 'desktop'`. -/
def deviceOf (ua : String) : String :=
  if strIncludes ua "Mobile" then "mobile" else "desktop"

/-- The request metadata the tracking routes read (headers already resolved
to strings at the boundary). -/
structure RequestInfo where
  qpSessionId : Option String := none
  cookieSessionId : Option String := none
  userAgent : String := ""
  country : String := "Unknown"
  city : String := "Unknown"
  referrer : String := ""

/-- Computes `searchParams.get('session_id') || request.cookies.get('session_id')?.value`. -/
def presentedToken (req : RequestInfo) : Option String :=
  if strTruthy req.qpSessionId then req.qpSessionId else req.cookieSessionId

/-- The validity lookup of `getOrCreateSession`:
`SELECT … FROM sessions WHERE session_id = ? AND start_time > datetime('now','-30 minutes')`,
guarded by `if (sessionId)`. -/
def validSession (store : Store2) (now : Nat) (presented : Option String) : Option Sess2 :=
  if strTruthy presented then
    store.sessions.find? (fun s =>
      s.session_id = presented.getD "" ∧ now < s.start_time + sessionWindowMs)
  else none

/-- The reuse `UPDATE`: `page_count = page_count + 1, is_bounce = 0,
end_time = CURRENT_TIMESTAMP, total_time_ms = now − start_time`. -/
def reuseSession (store : Store2) (now : Nat) (sid : String) : Store2 :=
  { store with
    sessions := store.sessions.map (fun s =>
      if s.session_id = sid then
        { s with
          page_count := s.page_count + 1
          is_bounce := false
          end_time := now
          total_time_ms := (now : Int) - (s.start_time : Int) }
      else s) }

/-- The previous-session count of the `getOrCreateSession` variant that
fingerprints on (browser, device, OS):
`COUNT(*) FROM sessions s WHERE start_time > datetime('now','-30 days') AND
(s.session_id = ? OR (s.browser = ? AND s.device = ? AND s.os = ?))`,
bound with `sessionId || ''`. -/
def prevSessionCount17 (store : Store2) (now : Nat) (presented : Option String)
    (browser device os : String) : Nat :=
  (store.sessions.filter (fun s => now < s.start_time + returningWindowMs ∧
    (s.session_id = presented.getD "" ∨
      (s.browser = browser ∧ s.device = device ∧ s.os = os)))).length

/-- The previous-session count of the other `getOrCreateSession` variant:
fingerprint (browser, device) without OS, plus an uncorrelated
`EXISTS (SELECT 1 FROM sessions WHERE browser = ? AND device = ? AND …)`
disjunct evaluated against the whole table. -/
def prevSessionCount16 (store : Store2) (now : Nat) (presented : Option String)
    (browser device : String) : Nat :=
  (store.sessions.filter (fun s => now < s.start_time + returningWindowMs ∧
    (s.session_id = presented.getD "" ∨
      (s.browser = browser ∧ s.device = device) ∨
      store.sessions.any (fun s2 =>
        s2.browser = browser ∧ s2.device = device ∧
        now < s2.start_time + returningWindowMs)))).length

/-- The `INSERT INTO sessions` of the mint branch: `page_count = 1`,
`is_bounce = 1`, `total_time_ms = 0`, `start_time = end_time = now`. -/
def mintSession (now : Nat) (newId : String) (isReturning : Bool)
    (device browser os country city referrer : String) : Sess2 :=
  { session_id := newId
    start_time := now
    end_time := now
    page_count := 1
    is_bounce := true
    is_returning := isReturning
    device := device
    browser := browser
    os := os
    country := country
    city := city
    referrer := referrer
    total_time_ms := 0 }

/-- Embeds `getOrCreateSession` (the variant whose fingerprint includes the OS);
`crypto.randomUUID()` is modelled by the caller-supplied `newId`. -/
def getOrCreateSession17 (store : Store2) (now : Nat) (req : RequestInfo)
    (newId : String) : String × Store2 :=
  let device := deviceOf req.userAgent
  let browser := getBrowser req.userAgent
  let os := getOS req.userAgent
  let presented := presentedToken req
  match validSession store now presented with
  | some s => (s.session_id, reuseSession store now s.session_id)
  | none =>
      let isReturning : Bool := 0 < prevSessionCount17 store now presented browser device os
      (newId,
        { store with
          sessions := store.sessions ++
            [mintSession now newId isReturning device browser os
              req.country req.city req.referrer] })

/-- Embeds `getOrCreateSession` of the pageview-recording route (fingerprint without
OS, city hard-coded to `'Unknown'`). -/
def getOrCreateSession16 (store : Store2) (now : Nat) (req : RequestInfo)
    (newId : String) : String × Store2 :=
  let device := deviceOf req.userAgent
  let browser := getBrowser req.userAgent
  let presented := presentedToken req
  match validSession store now presented with
  | some s => (s.session_id, reuseSession store now s.session_id)
  | none =>
      let isReturning : Bool := 0 < prevSessionCount16 store now presented browser device
      (newId,
        { store with
          sessions := store.sessions ++
            [mintSession now newId isReturning device browser (getOS req.userAgent)
              req.country "Unknown" req.referrer] })

/-- The pageview-recording `GET` handler: resolve the session, insert the new
page-view with `exit_page = 1`, `time_on_page_ms = 0` and
`entry_page = !cookie`, then — only when a `session_id` cookie is present —
clear `exit_page` on every page-view of the session still carrying it
(including the row just inserted) and mark the session engaged. -/
def trackPageview (store : Store2) (now : Nat) (req : RequestInfo)
    (pageQuery : Option String) (newId : String) : String × Store2 :=
  let pagePath := if strTruthy pageQuery then pageQuery.getD "" else "/"
  let r := getOrCreateSession16 store now req newId
  let sid := r.1
  let store := r.2
  let store :=
    { store with
      pageviews := store.pageviews ++
        [{ id := store.nextPvId
           session_id := sid
           page_path := pagePath
           timestamp := now
           entry_page := ¬ strTruthy req.cookieSessionId
           exit_page := true
           time_on_page_ms := 0
           max_scroll_percentage := 0 }]
      nextPvId := store.nextPvId + 1 }
  if strTruthy req.cookieSessionId then
    let store :=
      { store with
        pageviews := store.pageviews.map (fun (p : Pv2) =>
          if p.session_id = sid ∧ p.exit_page then { p with exit_page := false } else p) }
    let store :=
      { store with
        sessions := store.sessions.map (fun (s : Sess2) =>
          if s.session_id = sid then
            { s with
              is_bounce := false
              end_time := now
              total_time_ms := (now : Int) - (s.start_time : Int) }
          else s) }
    (sid, store)
  else (sid, store)

/-! ## The retention query of the dashboard metrics route -/

/-- The retention block of the dashboard metrics route; `none` models the SQL
`NULL` produced by `NULLIF(total_sessions, 0)`. The route's
`retention || {…zero defaults}` fallback never applies, because an aggregate
`SELECT` without `GROUP BY` always yields one (truthy) row. -/
structure RetentionRow where
  total_sessions : Nat
  bounce_rate : Option ℚ
  avg_session_duration : ℚ
  avg_pages_per_session : ℚ
  returning_visitor_rate : Option ℚ
  deriving Repr, DecidableEq

/-- SQL `AVG` over a list, `none` (SQL `NULL`) for the empty list. -/
def sqlAvg (l : List ℚ) : Option ℚ :=
  if l.length = 0 then none else some (l.sum / (l.length : ℚ))

/-- The `session_stats` retention query:
window filter `start_time > datetime('now', ?) AND end_time > start_time`,
`COUNT(DISTINCT session_id)`, bounced/returning sums, conditional averages,
then the ratio `SELECT` with `NULLIF` and `ROUND(…, 2)`. -/
def retentionOf (store : Store2) (now windowMs : Nat) : RetentionRow :=
  let rows := store.sessions.filter (fun s =>
    now < s.start_time + windowMs ∧ s.start_time < s.end_time)
  let total := ((rows.map (fun s => s.session_id)).dedup).length
  let bounced := rows.countP (fun s => s.is_bounce)
  let returning := rows.countP (fun s => s.is_returning)
  let avgDuration := sqlAvg ((rows.filter (fun s => 0 < s.total_time_ms)).map
    (fun s => (s.total_time_ms : ℚ)))
  let avgPages := sqlAvg ((rows.filter (fun s => 0 < s.page_count)).map
    (fun s => (s.page_count : ℚ)))
  { total_sessions := total
    bounce_rate :=
      if total = 0 then none
      else some (sqlRound2 ((bounced : ℚ) / (total : ℚ) * 100))
    avg_session_duration := sqlRound2 (avgDuration.getD 0 / 1000)
    avg_pages_per_session := sqlRound2 (avgPages.getD 0)
    returning_visitor_rate :=
      if total = 0 then none
      else some (sqlRound2 ((returning : ℚ) / (total : ℚ) * 100)) }

/-! ## The file-backed `Analytics` variant with required-field validation -/

/-- The parameter record of the validating `handleTracking`. -/
structure Params20 where
  sessionId : Option String := none
  event : Option String := none
  page : Option String := none
  scrollDepth : Option String := none
  element : Option String := none
  href : Option String := none

/-- A `sessions` row of the validating variant (`session_id`, `created_at`). -/
structure Session20 where
  session_id : String
  created_at : Nat
  deriving Repr, DecidableEq

/-- An `events` row of the validating variant. -/
structure Event20 where
  session_id : String
  event_type : String
  page : Option String
  scroll_depth : Option Int
  element : Option String
  href : Option String
  created_at : Nat
  deriving Repr, DecidableEq

/-- The store of the validating variant. -/
structure Store20 where
  sessions : List Session20
  events : List Event20
  deriving Repr, DecidableEq

/-- The `TrackingResponse` of the validating variant. -/
structure TrackingResponse20 where
  session_id : String
  is_new_session : Bool
  event : Option String
  page : Option String
  scroll_depth : Option Int
  element : Option String
  href : Option String
  deriving Repr, DecidableEq

/-- Embeds `getSession`: `session_id = ? AND created_at > datetime('now','-24 hours')`. -/
def getSession20 (store : Store20) (now : Nat) (sid : String) : Option Session20 :=
  store.sessions.find? (fun s =>
    s.session_id = sid ∧ now < s.created_at + 24 * 60 * 60 * 1000)

/-- The validating `handleTracking`: required-field checks throw before any
write (an `Except.error` result therefore leaves the store untouched), then
session resolution (reuse within 24 h else mint `newId`), then the optional
`trackEvent` insert, then the echoed response. -/
def handleTracking20 (store : Store20) (now : Nat) (newId : String)
    (params : Params20) : Except String (Store20 × TrackingResponse20) :=
  if params.event = some "pageview" ∧ ¬ strTruthy params.page then
    .error "Missing required parameter: page"
  else if params.event = some "scroll" ∧ ¬ strTruthy params.scrollDepth then
    .error "Missing required parameter: scrollDepth"
  else if params.event = some "click" ∧
      (¬ strTruthy params.element ∨ ¬ strTruthy params.href) then
    .error "Missing required parameters: element and href"
  else
    let resolved : String × Bool × Store20 :=
      if strTruthy params.sessionId then
        match getSession20 store now (params.sessionId.getD "") with
        | some s => (s.session_id, false, store)
        | none =>
            (newId, true,
              { store with sessions := store.sessions ++ [{ session_id := newId, created_at := now }] })
      else
        (newId, true,
          { store with sessions := store.sessions ++ [{ session_id := newId, created_at := now }] })
    let activeSessionId := resolved.1
    let store := resolved.2.2
    let store :=
      if strTruthy params.event then
        { store with
          events := store.events ++
            [{ session_id := activeSessionId
               event_type := params.event.getD ""
               page := params.page
               scroll_depth :=
                 if strTruthy params.scrollDepth then parseIntJS (params.scrollDepth.getD "")
                 else none
               element := params.element
               href := params.href
               created_at := now }] }
      else store
    .ok (store,
      { session_id := activeSessionId
        is_new_session := resolved.2.1
        event := strOrNull params.event
        page := strOrNull params.page
        scroll_depth :=
          if strTruthy params.scrollDepth then parseIntJS (params.scrollDepth.getD "")
          else none
        element := strOrNull params.element
        href := strOrNull params.href })

/-! ## The pure statistics utility (`calculateConfidence` and helpers)

The source computes with IEEE doubles; the embedding idealises them as real
numbers, which keeps every branch condition and the algebraic structure of
the Abramowitz–Stegun 7.1.26 approximation. -/

/-- Computes `standardError(p, n) = sqrt(p(1-p)/n)`. -/
noncomputable def standardError (p n : ℝ) : ℝ := Real.sqrt ((p * (1 - p)) / n)

/-- The Horner polynomial `(((((a5·t + a4)·t) + a3)·t + a2)·t + a1)·t` of the
error-function approximation, with the source's constants. -/
noncomputable def erfPoly (t : ℝ) : ℝ :=
  ((((1.061405429 * t + (-1.453152027)) * t + 1.421413741) * t
      + (-0.284496736)) * t + 0.254829592) * t

/-- The `erf` approximation (A&S formula 7.1.26): sign handling, then
`1 − poly(t)·exp(−x²)` with `t = 1/(1 + 0.3275911·|x|)`. -/
noncomputable def erf (x : ℝ) : ℝ :=
  let sign : ℝ := if x < 0 then -1 else 1
  let ax := |x|
  let t := 1 / (1 + 0.3275911 * ax)
  sign * (1 - erfPoly t * Real.exp (-(ax * ax)))

/-- Embeds `calculateConfidence`: 0 on an empty sample or identical rates, otherwise
the two-proportion z-test pushed through the `erf` approximation and capped
at `0.9999`. -/
noncomputable def calculateConfidence
    (conversionsA visitorsA conversionsB visitorsB : ℝ) : ℝ :=
  if visitorsA = 0 ∨ visitorsB = 0 then 0
  else
    let rateA := conversionsA / visitorsA
    let rateB := conversionsB / visitorsB
    if rateA = rateB then 0
    else
      let se := Real.sqrt (standardError rateA visitorsA ^ 2 +
        standardError rateB visitorsB ^ 2)
      let z := |rateA - rateB| / se
      min 0.9999 ((1 + erf (z / Real.sqrt 2)) / 2)

/-! ## Spec-side definitions and concrete traces used by the theorems -/

/-- Spec-side bounce predicate, following the claim's words: the session has
zero or exactly one recorded page-view and no `user_engaged`/`conversion`-class
event. Stated for refinement comparison against the embedded aggregation. -/
def claimIsBounce (store : Store) (s : SessionRow) : Bool :=
  (store.page_views.filter (fun p => p.session_id = s.session_id)).length ≤ 1 ∧
  (store.events.filter (fun e => e.session_id = s.session_id ∧
    (e.event_name = "user_engaged" ∨ e.event_name = "conversion"))).length = 0

/-- Spec-side bounce rate, following the claim's words: bounced sessions over
total sessions × 100, rounded to two decimals, zero when there are none. -/
def claimBounceRate (store : Store) : ℚ :=
  if store.sessions.isEmpty then 0
  else sqlRound2 ((store.sessions.countP (claimIsBounce store) : ℚ) /
    (store.sessions.length : ℚ) * 100)

/-- A concrete store: two sessions without page-views and one session with a
single page-view and a `user_engaged` event. -/
def c1store : Store :=
  { sessions := [{ session_id := "a1", start_time := 0 },
                 { session_id := "a2", start_time := 0 },
                 { session_id := "b", start_time := 0 }]
    page_views := [{ id := 0, session_id := "b", page := "/", timestamp := 0 }]
    events := [{ id := 0, session_id := "b", event_name := "user_engaged", timestamp := 1 }]
    nextPvId := 1
    nextEventId := 1 }

/-- First call of the query-parameter trace: no token at all. -/
def qpStep1 : String × Store2 :=
  trackPageview { sessions := [], pageviews := [] } 0 { userAgent := "ua" } (some "/home") "s1"

/-- Second call of the query-parameter trace, 5000 ms later: the session
token is presented via the `session_id` query parameter, with no cookie. -/
def qpStep2 : String × Store2 :=
  trackPageview qpStep1.2 5000 { qpSessionId := some "s1", userAgent := "ua" }
    (some "/about") "s2"

/-- A `session_start` call for token `A` at t = 0. -/
def d1TraceStart : TrackingData := { sessionId := some "A", event := some "session_start" }

/-- A bare pageview call for `/home` (no client-supplied `timeSpent`). -/
def d1TraceHome : TrackingData := { sessionId := some "A", page := some "/home" }

/-- A bare pageview call for `/about` (no client-supplied `timeSpent`). -/
def d1TraceAbout : TrackingData := { sessionId := some "A", page := some "/about" }

/-- The literal scenario of the spec: `session_start` at t = 0, pageview
`/home` at t = 0, pageview `/about` at t = 5000, run through the D1 recorder. -/
def d1Trace : Except String Store :=
  ((handleTracking { sessions := [], page_views := [], events := [] } 0 d1TraceStart).bind
    (fun st => handleTracking st 0 d1TraceHome)).bind
    (fun st => handleTracking st 5000 d1TraceAbout)

/-- A store holding session `A` with one page-view (id 0) at t = 0. -/
def c4wStore : Store :=
  { sessions := [{ session_id := "A", start_time := 0 }]
    page_views := [{ id := 0, session_id := "A", page := "/h", timestamp := 0 }]
    events := []
    nextPvId := 1
    nextEventId := 0 }

/-- The page-view row of `c4wStore`. -/
def c4wTarget : PageViewRow := { id := 0, session_id := "A", page := "/h", timestamp := 0 }

/-- The store after a second pageview call carrying `timeSpent = 7`. -/
def c4wResult : Store :=
  (handleTracking c4wStore 5000
    { sessionId := some "A", page := some "/a", timeSpent := some 7 }).toOption.getD
    { sessions := [], page_views := [], events := [] }

/-! ## Theorems -/

/-- C10: if a session with the presented token already exists, a retransmitted
`session_start` call succeeds and leaves the entire store unchanged — no new
session row is inserted and no attribute of the existing session (start time,
device, geo, referrer) is overwritten. -/
theorem session_start_idempotent (store : Store) (now : Nat) (data : TrackingData)
    (sid : String) (hsid : data.sessionId = some sid) (hne : sid ≠ "")
    (hex : (store.sessions.find? (fun s => s.session_id = sid)).isSome)
    (hev : data.event = some "session_start") :
    handleTracking store now data = .ok store := by
  obtain ⟨s, hs⟩ := Option.isSome_iff_exists.mp hex
  simp only [handleTracking, hsid, hev, strTruthy, hne, Option.getD_some, hs]
  simp [hne]

/-- Witness for C10: a concrete store with session `A` and a retransmitted
`session_start` for `A`. -/
theorem session_start_idempotent_witness :
    handleTracking
      { sessions := [{ session_id := "A", start_time := 7 }], page_views := [],
        events := [] } 99 { sessionId := some "A", event := some "session_start" } =
      .ok { sessions := [{ session_id := "A", start_time := 7 }], page_views := [],
            events := [] } :=
  session_start_idempotent _ 99 _ "A" rfl (by decide) (by decide) rfl

/-- C5: a `pageview` event without a page path, a `scroll` event without a
scroll-depth value, and a `click` event lacking element or href each fail fast
with the corresponding "Missing required parameter(s)" error; the error is
raised before any write, so nothing is recorded (the `Except.error` result
carries no store). -/
theorem validation_errors_fail_fast (store : Store20) (now : Nat) (newId : String)
    (params : Params20) :
    (params.event = some "pageview" → ¬ strTruthy params.page →
      handleTracking20 store now newId params =
        .error "Missing required parameter: page") ∧
    (params.event = some "scroll" → ¬ strTruthy params.scrollDepth →
      handleTracking20 store now newId params =
        .error "Missing required parameter: scrollDepth") ∧
    (params.event = some "click" →
      (¬ strTruthy params.element ∨ ¬ strTruthy params.href) →
      handleTracking20 store now newId params =
        .error "Missing required parameters: element and href") := by
  refine ⟨fun h1 h2 => ?_, fun h1 h2 => ?_, fun h1 h2 => ?_⟩
  · simp [handleTracking20, h1, h2]
  · simp [handleTracking20, h1, h2]
  · rcases h2 with h2 | h2 <;> simp [handleTracking20, h1, h2]

/-- Witness for C5: the spec's literal scenario, a click event with an element
but no href. -/
theorem validation_errors_fail_fast_witness :
    handleTracking20 { sessions := [], events := [] } 0 "n"
      { event := some "click", element := some "btn" } =
      .error "Missing required parameters: element and href" :=
  (validation_errors_fail_fast _ 0 "n" _).2.2 rfl (Or.inr (by decide))

/-- C6: a tracking call whose event is not `session_start` and whose session
token has no backing session row raises `Invalid session`, surfaced as HTTP
403, while missing-required-parameter errors surface as HTTP 400; the error is
raised before any write, so nothing is recorded for the call. -/
theorem invalid_session_distinct_403 (store : Store) (now : Nat) (data : TrackingData)
    (sid : String) (hsid : data.sessionId = some sid) (hne : sid ≠ "")
    (hnone : store.sessions.find? (fun s => s.session_id = sid) = none)
    (hev : data.event ≠ some "session_start") :
    handleTracking store now data = .error "Invalid session" ∧
    statusOf (handleTracking store now data) = 403 ∧
    ∀ (store20 : Store20) (now20 : Nat) (newId : String) (params : Params20),
      params.event = some "click" → params.element = none →
      statusOf (handleTracking20 store20 now20 newId params) = 400 := by
  have h1 : handleTracking store now data = .error "Invalid session" := by
    simp only [handleTracking, hsid, strTruthy, Option.getD_some, hnone]
    simp [hne, hev]
  refine ⟨h1, ?_, ?_⟩
  · rw [h1]; decide
  · intro store20 now20 newId params hev20 hel
    have h2 : handleTracking20 store20 now20 newId params =
        .error "Missing required parameters: element and href" := by
      simp [handleTracking20, hev20, hel, strTruthy]
    rw [h2]; decide

/-- Witness for C6: an unknown token with a `click` event is a 403, and a
`click` with a missing element is a 400. -/
theorem invalid_session_distinct_403_witness :
    statusOf (handleTracking { sessions := [], page_views := [], events := [] } 0
      { sessionId := some "x", event := some "click" }) = 403 ∧
    statusOf (handleTracking20 { sessions := [], events := [] } 0 "n"
      { event := some "click" }) = 400 :=
  ⟨(invalid_session_distinct_403 { sessions := [], page_views := [], events := [] } 0
      { sessionId := some "x", event := some "click" } "x" rfl (by decide) rfl
      (by decide)).2.1,
   (invalid_session_distinct_403 { sessions := [], page_views := [], events := [] } 0
      { sessionId := some "x", event := some "click" } "x" rfl (by decide) rfl
      (by decide)).2.2 { sessions := [], events := [] } 0 "n"
      { event := some "click" } rfl rfl⟩

/-- C3: a tracking call presenting a token whose session started within the
30-minute window reuses that session — `page_count` is incremented by one,
the bounce flag cleared, `end_time` refreshed and the total time recomputed
as `now − start_time` — and no new session is created; when every session
with the presented token started at least 30 minutes ago, a new session is
minted instead, even though the client presented the old token. -/
theorem session_reuse_within_window (store : Store2) (now : Nat) (req : RequestInfo)
    (newId sid : String)
    (hids : (store.sessions.map (fun s => s.session_id)).Nodup)
    (hpres : presentedToken req = some sid) (hne : sid ≠ "") :
    (∀ s0 ∈ store.sessions, s0.session_id = sid →
      now < s0.start_time + sessionWindowMs →
      (getOrCreateSession17 store now req newId).1 = sid ∧
      (getOrCreateSession17 store now req newId).2.sessions.length =
        store.sessions.length ∧
      ∀ s' ∈ (getOrCreateSession17 store now req newId).2.sessions,
        s'.session_id = sid →
        s'.page_count = s0.page_count + 1 ∧ s'.is_bounce = false ∧
        s'.end_time = now ∧
        s'.total_time_ms = (now : Int) - (s0.start_time : Int)) ∧
    ((∀ s ∈ store.sessions, s.session_id = sid →
        s.start_time + sessionWindowMs ≤ now) →
      (getOrCreateSession17 store now req newId).1 = newId ∧
      (getOrCreateSession17 store now req newId).2.sessions.length =
        store.sessions.length + 1) := by
  have hstr : strTruthy (presentedToken req) = true := by
    rw [hpres]; simpa [strTruthy] using hne
  have hvs0 : validSession store now (presentedToken req) =
      store.sessions.find? (fun s =>
        s.session_id = sid ∧ now < s.start_time + sessionWindowMs) := by
    simp only [validSession, hpres, Option.getD_some]
    simp [strTruthy, hne]
  constructor
  · intro s0 hmem hs0 hfresh
    have hex : (store.sessions.find? (fun s =>
        s.session_id = sid ∧ now < s.start_time + sessionWindowMs)).isSome :=
      List.find?_isSome.mpr ⟨s0, hmem, by simp [hs0, hfresh]⟩
    obtain ⟨sF, hF⟩ := Option.isSome_iff_exists.mp hex
    have hpF := List.find?_some hF
    have hmemF := List.mem_of_find?_eq_some hF
    simp only [decide_eq_true_eq] at hpF
    have hvs : validSession store now (presentedToken req) = some sF :=
      hvs0.trans hF
    have heq : s0 = sF :=
      List.inj_on_of_nodup_map hids hmem hmemF (by rw [hs0, hpF.1])
    simp only [getOrCreateSession17, hvs, reuseSession, List.length_map]
    refine ⟨hpF.1, by trivial, ?_⟩
    intro s' hs' hsid'
    obtain ⟨s, hsmem, rfl⟩ := List.mem_map.mp hs'
    by_cases hcase : s.session_id = sF.session_id
    · have hs0s : s = s0 := by
        refine List.inj_on_of_nodup_map hids hsmem hmem ?_
        rw [hcase, ← heq]
      subst hs0s
      simp [hcase, heq]
    · exfalso
      rw [if_neg (by simpa [hpF.1] using hcase)] at hsid'
      exact hcase (by rw [hsid', hpF.1])
  · intro hstale
    have hnone : store.sessions.find? (fun s =>
        s.session_id = sid ∧ now < s.start_time + sessionWindowMs) = none := by
      refine List.find?_eq_none.mpr fun s hs => ?_
      simp only [decide_eq_true_eq, not_and]
      intro hid
      exact not_lt.mpr (hstale s hs hid)
    have hvs : validSession store now (presentedToken req) = none :=
      hvs0.trans hnone
    simp [getOrCreateSession17, hvs]

/-- Witness for C3: a session started at t = 0 is reused at 29 minutes
(page count 2, bounce cleared, duration 1 740 000 ms) and replaced by a fresh
session at 31 minutes. -/
theorem session_reuse_within_window_witness :
    ((getOrCreateSession17
        { sessions := [mintSession 0 "t" false "desktop" "Chrome" "Windows" "US" "X" ""],
          pageviews := [] } (29 * 60 * 1000) { qpSessionId := some "t" } "n").1 = "t" ∧
      (getOrCreateSession17
        { sessions := [mintSession 0 "t" false "desktop" "Chrome" "Windows" "US" "X" ""],
          pageviews := [] } (29 * 60 * 1000) { qpSessionId := some "t" } "n").2.sessions.length = 1) ∧
    ((getOrCreateSession17
        { sessions := [mintSession 0 "t" false "desktop" "Chrome" "Windows" "US" "X" ""],
          pageviews := [] } (31 * 60 * 1000) { qpSessionId := some "t" } "n").1 = "n" ∧
      (getOrCreateSession17
        { sessions := [mintSession 0 "t" false "desktop" "Chrome" "Windows" "US" "X" ""],
          pageviews := [] } (31 * 60 * 1000) { qpSessionId := some "t" } "n").2.sessions.length = 2) := by
  constructor
  · have h := (session_reuse_within_window
      { sessions := [mintSession 0 "t" false "desktop" "Chrome" "Windows" "US" "X" ""],
        pageviews := [] } (29 * 60 * 1000) { qpSessionId := some "t" } "n" "t"
      (by decide) rfl (by decide)).1
      (mintSession 0 "t" false "desktop" "Chrome" "Windows" "US" "X" "")
      (by decide) rfl (by decide)
    exact ⟨h.1, h.2.1⟩
  · exact (session_reuse_within_window
      { sessions := [mintSession 0 "t" false "desktop" "Chrome" "Windows" "US" "X" ""],
        pageviews := [] } (31 * 60 * 1000) { qpSessionId := some "t" } "n" "t"
      (by decide) rfl (by decide)).2 (by decide)

/-- C8: every newly minted session is inserted with `page_count = 1` and
`is_bounce = true`, and its returning-visitor flag is true iff some prior
session within the trailing 30 days shares the presented token or the
(browser, device, OS) fingerprint. -/
theorem new_session_returning_classification (store : Store2) (now : Nat)
    (req : RequestInfo) (newId : String)
    (hmint : validSession store now (presentedToken req) = none) :
    (getOrCreateSession17 store now req newId).1 = newId ∧
    ∃ newSess : Sess2,
      (getOrCreateSession17 store now req newId).2.sessions =
        store.sessions ++ [newSess] ∧
      newSess.session_id = newId ∧ newSess.page_count = 1 ∧
      newSess.is_bounce = true ∧
      (newSess.is_returning = true ↔ ∃ s ∈ store.sessions,
        now < s.start_time + returningWindowMs ∧
        (s.session_id = (presentedToken req).getD "" ∨
          (s.browser = getBrowser req.userAgent ∧
           s.device = deviceOf req.userAgent ∧ s.os = getOS req.userAgent))) := by
  simp only [getOrCreateSession17, hmint]
  refine ⟨by trivial, _, by trivial, by trivial, by trivial, by trivial, ?_⟩
  simp only [mintSession, decide_eq_true_eq]
  rw [prevSessionCount17, ← List.countP_eq_length_filter, List.countP_pos_iff]
  simp

/-- Witness for C8: an expired prior session sharing the presented token makes
the fresh session a returning visit with `page_count = 1`, `is_bounce = true`. -/
theorem new_session_returning_classification_witness :
    (getOrCreateSession17
      { sessions := [mintSession 0 "t" false "desktop" "Unknown" "Unknown" "US" "X" ""],
        pageviews := [] } (31 * 60 * 1000) { qpSessionId := some "t" } "n").1 = "n" :=
  (new_session_returning_classification
    { sessions := [mintSession 0 "t" false "desktop" "Unknown" "Unknown" "US" "X" ""],
      pageviews := [] } (31 * 60 * 1000) { qpSessionId := some "t" } "n" (by decide)).1

/-- C2 (code bug): two pageview calls whose session token travels via the
`session_id` query parameter and never via cookie leave one session at rest
with TWO page-views marked `exit_page = true` — the clearing `UPDATE` only
runs when a cookie is present, so the at-most-one invariant fails. -/
theorem exit_page_duplicate_on_query_param_flow :
    qpStep2.2.sessions.length = 1 ∧
    qpStep2.2.pageviews.length = 2 ∧
    (qpStep2.2.pageviews.filter (fun p => p.session_id = "s1" ∧ p.exit_page)).length = 2 := by
  decide

/-- C7 (code bug): over a window with zero sessions, the D1 `getMetrics`
does return 0 for `bounceRate` and `conversionRate` and an empty CTR list,
but the dashboard route's retention block yields SQL `NULL` — not 0 — for
both `bounce_rate` and `returning_visitor_rate` (its `retention || {…0}`
fallback is dead code, since the aggregate always returns one row). -/
theorem zero_sessions_metrics_evaluation :
    (retentionOf { sessions := [], pageviews := [] } 1000
      (7 * 24 * 60 * 60 * 1000)).total_sessions = 0 ∧
    (retentionOf { sessions := [], pageviews := [] } 1000
      (7 * 24 * 60 * 60 * 1000)).bounce_rate = none ∧
    (retentionOf { sessions := [], pageviews := [] } 1000
      (7 * 24 * 60 * 60 * 1000)).returning_visitor_rate = none ∧
    getMetricsBounceRate { sessions := [], page_views := [], events := [] } none = 0 ∧
    getMetricsConversionRate { sessions := [], page_views := [], events := [] } none = 0 ∧
    clickThroughRatesOf { sessions := [], page_views := [], events := [] } none = [] := by
  refine ⟨by decide, by decide, by decide, by decide, by decide, ?_⟩
  simp [clickThroughRatesOf, totalVisitorsOf, tfCond]

/-- C1 (counterexample): on a store with two sessions having zero page-views
and one session having a single page-view plus a `user_engaged` event, the
aggregation reports a bounce rate of 33.33 while the claim's reading
(zero-or-one page-view and no engagement event ⇒ bounced) predicts 66.67. -/
theorem bounceRate_zero_pv_engagement_counterexample :
    getMetricsBounceRate c1store none = 3333 / 100 ∧
    claimBounceRate c1store = 6667 / 100 ∧
    getMetricsBounceRate c1store none ≠ claimBounceRate c1store := by
  have h1 : getMetricsBounceRate c1store none = 3333 / 100 := by
    simp [getMetricsBounceRate, bounceRateQ, sessionPvCounts, c1store, sqlRound2, tfActive]
    rw [round_eq]; norm_num
  have h2 : claimBounceRate c1store = 6667 / 100 := by
    simp [claimBounceRate, claimIsBounce, c1store, sqlRound2]
    rw [round_eq]; norm_num
  exact ⟨h1, h2, by rw [h1, h2]; norm_num⟩

/-- C1 (amended): without a timeframe, the aggregation counts a session as
bounced iff it has EXACTLY one page-view — zero-page-view sessions are not
counted (the `page_count IS NULL` disjunct of the `CASE` is dead, because
`COUNT` never returns `NULL`) and engagement/conversion events play no role —
and the reported bounce rate is bounced / total × 100 rounded to 2 decimals,
with 0 reported when there are no sessions. -/
theorem bounceRate_counts_single_pageview_sessions (store : Store)
    (hids : (store.sessions.map (fun s => s.session_id)).Nodup) :
    getMetricsBounceRate store none =
      if store.sessions.isEmpty then 0
      else sqlRound2 (((store.sessions.countP (fun s =>
          (store.page_views.filter (fun p => p.session_id = s.session_id)).length = 1) : ℚ)) /
        (store.sessions.length : ℚ) * 100) := by
  by_cases he : store.sessions.isEmpty
  · have h0 : store.sessions = [] := List.isEmpty_iff.mp he
    simp [getMetricsBounceRate, bounceRateQ, sessionPvCounts, tfActive, h0]
  · have h0 : store.sessions ≠ [] := by simpa [List.isEmpty_iff] using he
    have hlen : store.sessions.length ≠ 0 := by
      simpa [List.length_eq_zero] using h0
    simp only [getMetricsBounceRate, bounceRateQ, sessionPvCounts, tfActive,
      Bool.false_eq_true, if_false, List.length_map, he]
    rw [if_neg hlen, Option.getD_some]
    congr 2
    rw [← List.countP_eq_length_filter, List.countP_map]
    rfl

/-- Witness for C1's amended theorem at the concrete counterexample store. -/
theorem bounceRate_counts_single_pageview_sessions_witness :
    getMetricsBounceRate c1store none =
      if c1store.sessions.isEmpty then 0
      else sqlRound2 (((c1store.sessions.countP (fun s =>
          (c1store.page_views.filter (fun p => p.session_id = s.session_id)).length = 1) : ℚ)) /
        (c1store.sessions.length : ℚ) * 100) :=
  bounceRate_counts_single_pageview_sessions c1store (by decide)

/-- A fold that at each step either keeps its accumulator or replaces it by
the current element can only produce the initial accumulator or a member. -/
theorem foldl_choice_mem {α : Type} (step : Option α → α → Option α)
    (hstep : ∀ acc p t, step acc p = some t → t = p ∨ acc = some t) :
    ∀ (l : List α) (acc : Option α) (t : α),
      l.foldl step acc = some t → acc = some t ∨ t ∈ l := by
  intro l
  induction l with
  | nil => exact fun acc t h => Or.inl h
  | cons p rest ih =>
      intro acc t h
      rcases ih (step acc p) t h with hacc | hmem
      · rcases hstep acc p t hacc with rfl | hacc2
        · exact Or.inr (List.mem_cons_self _ _)
        · exact Or.inl hacc2
      · exact Or.inr (List.mem_cons_of_mem _ hmem)

/-- The latest page-view of a session is one of its page-views. -/
theorem latestPv_mem {store : Store} {sid : String} {t : PageViewRow}
    (h : latestPv store sid = some t) :
    t ∈ store.page_views ∧ t.session_id = sid := by
  unfold latestPv at h
  have hmem := foldl_choice_mem _ ?hstep _ none t h
  case hstep =>
    intro acc p t' ht'
    rcases acc with _ | q
    · simp only at ht'
      exact Or.inl (Option.some.injEq .. ▸ ht').symm
    · simp only at ht'
      by_cases hts : q.timestamp ≤ p.timestamp
      · rw [if_pos hts] at ht'
        exact Or.inl (Option.some.injEq .. ▸ ht').symm
      · rw [if_neg hts] at ht'
        exact Or.inr ht'
  rcases hmem with hcontra | hfil
  · cases hcontra
  · obtain ⟨hm, hc⟩ := List.mem_filter.mp hfil
    exact ⟨hm, of_decide_eq_true hc⟩

/-- C4 (amended): when the next page-view call carries a client-supplied
nonzero `timeSpent`, the D1 recorder back-fills the previous latest page-view
with THAT value (never a server-computed `t1 − t0`; with no `timeSpent` the
previous row is left untouched, as the counterexample shows); the edge
recorder never back-fills `time_on_page_ms` at all (existing values are
untouched and the new row gets 0), and in its cookie flow every page-view of
the session — including the previous one — ends with `exit_page = false`. -/
theorem time_on_page_uses_client_value :
    (∀ (store : Store) (sid p2 : String) (v t1 : Nat) (st' : Store)
        (target : PageViewRow),
      (store.page_views.map (fun p => p.id)).Nodup →
      (∀ p ∈ store.page_views, p.id < store.nextPvId) →
      (store.sessions.find? (fun s => s.session_id = sid)).isSome →
      latestPv store sid = some target →
      sid ≠ "" → p2 ≠ "" → v ≠ 0 →
      handleTracking store t1
        { sessionId := some sid, page := some p2, timeSpent := some v } = .ok st' →
      (∃ q ∈ st'.page_views, q.id = target.id ∧ q.time_spent = some v) ∧
      ∀ q ∈ st'.page_views, q.id = target.id → q.time_spent = some v) ∧
    (∀ (store : Store2) (now : Nat) (req : RequestInfo)
        (pageQuery : Option String) (newId : String),
      strTruthy req.cookieSessionId = true →
      (trackPageview store now req pageQuery newId).2.pageviews.map
          (fun p => p.time_on_page_ms) =
        store.pageviews.map (fun p => p.time_on_page_ms) ++ [0] ∧
      ∀ q ∈ (trackPageview store now req pageQuery newId).2.pageviews,
        q.session_id = (trackPageview store now req pageQuery newId).1 →
        q.exit_page = false) := by
  constructor
  · intro store sid p2 v t1 st' target hnodup hwf hsess hlatest hsid hp2 hv hrun
    obtain ⟨htmem, htsid⟩ := latestPv_mem hlatest
    obtain ⟨sfound, hsf⟩ := Option.isSome_iff_exists.mp hsess
    simp only [handleTracking, strTruthy, natTruthy, Option.getD_some,
      effectiveTimestamp, hsf, setLatestPvTimeSpent, hlatest] at hrun
    simp [hsid, hp2, hv, strOrNull, ratOrNull] at hrun
    subst hrun
    constructor
    · refine ⟨{ target with time_spent := some v }, ?_, rfl, rfl⟩
      refine List.mem_append_left _ (List.mem_map.mpr ⟨target, htmem, ?_⟩)
      rw [if_pos ⟨htsid, rfl⟩]
    · intro q hq hqid
      rcases List.mem_append.mp hq with hmap | hnew
      · obtain ⟨p, hpmem, rfl⟩ := List.mem_map.mp hmap
        by_cases hcond : p.session_id = sid ∧ p.id = target.id
        · rw [if_pos hcond]
        · exfalso
          rw [if_neg hcond] at hqid
          have hpt : p = target :=
            List.inj_on_of_nodup_map hnodup hpmem htmem hqid
          exact hcond ⟨hpt ▸ htsid, hpt ▸ rfl⟩
      · exfalso
        rw [List.mem_singleton] at hnew
        rw [hnew] at hqid
        exact absurd hqid (Nat.ne_of_gt (hwf target htmem))
  · intro store now req pageQuery newId hcookie
    have hpn : (getOrCreateSession16 store now req newId).2.pageviews =
        store.pageviews ∧
        (getOrCreateSession16 store now req newId).2.nextPvId = store.nextPvId := by
      rcases h : validSession store now (presentedToken req) with _ | s <;>
        simp [getOrCreateSession16, h, reuseSession]
    simp only [trackPageview, hcookie, if_true, hpn.1, hpn.2]
    have hcomp : ∀ (l : List Pv2) (sid : String),
        (l.map (fun p => if p.session_id = sid ∧ p.exit_page then
          { p with exit_page := false } else p)).map (fun p => p.time_on_page_ms) =
        l.map (fun p => p.time_on_page_ms) := by
      intro l sid
      rw [List.map_map]
      refine List.map_congr_left fun p _ => ?_
      by_cases hc : p.session_id = sid ∧ p.exit_page <;> simp [hc]
    constructor
    · rw [hcomp]
      simp
    · intro q hq hqs
      obtain ⟨p, hp, rfl⟩ := List.mem_map.mp hq
      by_cases hc : p.session_id = (getOrCreateSession16 store now req newId).1 ∧
          p.exit_page
      · rw [if_pos hc]
      · rw [if_neg hc] at hqs ⊢
        by_cases hx : p.exit_page
        · exact absurd ⟨hqs, hx⟩ hc
        · simpa using hx

/-- C4 (counterexample): in the literal scenario — P1 `/home` at t₀ = 0, P2
`/about` at t₁ = 5000 — the D1 recorder leaves P1's `time_spent` NULL rather
than t₁ − t₀ = 5000 (no `timeSpent` accompanied P2), and the edge recorder's
query-parameter flow leaves P1 with `exit_page = true` and
`time_on_page_ms = 0`; both contradict the claim as stated. -/
theorem time_on_page_backfill_counterexample :
    d1Trace.toOption.map
        (fun st => st.page_views.map (fun p => (p.page, p.time_spent))) =
      some [("/home", none), ("/about", none)] ∧
    qpStep2.2.pageviews.map
        (fun p => (p.page_path, p.exit_page, p.time_on_page_ms)) =
      [("/home", true, 0), ("/about", true, 0)] ∧
    ¬ ∃ q ∈ (d1Trace.toOption.getD
        { sessions := [], page_views := [], events := [] }).page_views,
      q.page = "/home" ∧ q.time_spent = some 5000 :=
  ⟨by decide, by decide, by decide⟩

/-- Witness for C4's amended theorem: the D1 back-fill writes the supplied
`timeSpent = 7` onto P1, and the cookie flow of the edge recorder appends a
zero `time_on_page_ms` while keeping the existing values. -/
theorem time_on_page_uses_client_value_witness :
    (∃ q ∈ c4wResult.page_views, q.id = c4wTarget.id ∧ q.time_spent = some 7) ∧
    (trackPageview qpStep1.2 5000
        { cookieSessionId := some "s1", userAgent := "ua" } (some "/about")
        "s2").2.pageviews.map (fun p => p.time_on_page_ms) =
      qpStep1.2.pageviews.map (fun p => p.time_on_page_ms) ++ [0] :=
  ⟨(time_on_page_uses_client_value.1 c4wStore "A" "/a" 7 5000 c4wResult c4wTarget
      (by decide) (by decide) (by decide) (by decide) (by decide) (by decide)
      (by decide) rfl).1,
   (time_on_page_uses_client_value.2 qpStep1.2 5000
      { cookieSessionId := some "s1", userAgent := "ua" } (some "/about") "s2"
      (by decide)).1⟩

/-- Multiplying by a factor in [0, 1] keeps a quantity inside an interval
around zero. -/
theorem mul_unit_bounds {u t lo hi : ℝ} (ht0 : 0 ≤ t) (ht1 : t ≤ 1)
    (hlo : lo ≤ u) (hhi : u ≤ hi) (hlo0 : lo ≤ 0) (hhi0 : 0 ≤ hi) :
    lo ≤ u * t ∧ u * t ≤ hi := by
  constructor
  · rcases le_or_lt 0 u with h | h
    · nlinarith
    · nlinarith
  · rcases le_or_lt 0 u with h | h
    · nlinarith
    · nlinarith

set_option maxHeartbeats 1000000 in
/-- Interval bounds for the Horner polynomial of the `erf` approximation on
[0, 1], obtained by propagating endpoint bounds through each Horner step. -/
theorem erfPoly_bound {t : ℝ} (h0 : 0 ≤ t) (h1 : t ≤ 1) :
    erfPoly t ≤ 1.4 ∧ (-0.1 : ℝ) ≤ erfPoly t := by
  have hu1lo : (-1.453152027 : ℝ) ≤ 1.061405429 * t + (-1.453152027) := by linarith
  have hu1hi : 1.061405429 * t + (-1.453152027) ≤ 0 := by linarith
  have hm1 := mul_unit_bounds h0 h1 hu1lo hu1hi (by norm_num) le_rfl
  have hu2lo : (-0.031738286 : ℝ) ≤
      (1.061405429 * t + (-1.453152027)) * t + 1.421413741 := by linarith [hm1.1]
  have hu2hi : (1.061405429 * t + (-1.453152027)) * t + 1.421413741 ≤
      1.421413741 := by linarith [hm1.2]
  have hm2 := mul_unit_bounds h0 h1 hu2lo hu2hi (by norm_num) (by norm_num)
  have hu3lo : (-0.316235022 : ℝ) ≤
      ((1.061405429 * t + (-1.453152027)) * t + 1.421413741) * t +
        (-0.284496736) := by linarith [hm2.1]
  have hu3hi : ((1.061405429 * t + (-1.453152027)) * t + 1.421413741) * t +
      (-0.284496736) ≤ 1.136917005 := by linarith [hm2.2]
  have hm3 := mul_unit_bounds h0 h1 hu3lo hu3hi (by norm_num) (by norm_num)
  have hu4lo : (-0.06140543 : ℝ) ≤
      (((1.061405429 * t + (-1.453152027)) * t + 1.421413741) * t +
        (-0.284496736)) * t + 0.254829592 := by linarith [hm3.1]
  have hu4hi : (((1.061405429 * t + (-1.453152027)) * t + 1.421413741) * t +
      (-0.284496736)) * t + 0.254829592 ≤ 1.391746597 := by linarith [hm3.2]
  have hm4 := mul_unit_bounds h0 h1 hu4lo hu4hi (by norm_num) (by norm_num)
  constructor
  · unfold erfPoly; linarith [hm4.2]
  · unfold erfPoly; linarith [hm4.1]

/-- On nonnegative inputs the `erf` approximation stays strictly above −1. -/
theorem erf_gt_neg_one {x : ℝ} (hx : 0 ≤ x) : -1 < erf x := by
  have hxlt : ¬ x < 0 := not_lt.mpr hx
  have hax : |x| = x := abs_of_nonneg hx
  have hden0 : (0 : ℝ) < 1 + 0.3275911 * x := by nlinarith
  have ht0 : 0 ≤ 1 / (1 + 0.3275911 * x) := by positivity
  have ht1 : 1 / (1 + 0.3275911 * x) ≤ 1 := by
    rw [div_le_one hden0]; nlinarith
  have hexp0 : 0 < Real.exp (-(x * x)) := Real.exp_pos _
  have hexp1 : Real.exp (-(x * x)) ≤ 1 := by
    rw [show (1 : ℝ) = Real.exp 0 by simp]
    exact Real.exp_le_exp.mpr (by nlinarith)
  obtain ⟨hple, hpge⟩ := erfPoly_bound ht0 ht1
  have hprod : erfPoly (1 / (1 + 0.3275911 * x)) * Real.exp (-(x * x)) < 2 := by
    rcases le_or_lt 0 (erfPoly (1 / (1 + 0.3275911 * x))) with h | h
    · nlinarith
    · nlinarith
  simp only [erf, hax, if_neg hxlt]
  nlinarith [hprod]

/-- C9: `calculateConfidence` returns 0 when either sample is empty or the
two conversion rates coincide; its output is always capped at 0.9999; and at
the literal inputs (50, 1000, 40, 1000) it lies strictly between 0 and 1. -/
theorem calculateConfidence_spec :
    (∀ cA vA cB vB : ℝ, vA = 0 ∨ vB = 0 ∨ cA / vA = cB / vB →
      calculateConfidence cA vA cB vB = 0) ∧
    (∀ cA vA cB vB : ℝ, calculateConfidence cA vA cB vB ≤ 0.9999) ∧
    0 < calculateConfidence 50 1000 40 1000 ∧
    calculateConfidence 50 1000 40 1000 < 1 := by
  have hle : ∀ cA vA cB vB : ℝ, calculateConfidence cA vA cB vB ≤ 0.9999 := by
    intro cA vA cB vB
    simp only [calculateConfidence]
    split_ifs
    · norm_num
    · norm_num
    · exact min_le_left _ _
  refine ⟨?_, hle, ?_, lt_of_le_of_lt (hle 50 1000 40 1000) (by norm_num)⟩
  · intro cA vA cB vB h
    by_cases hv : vA = 0 ∨ vB = 0
    · simp [calculateConfidence, hv]
    · have hr : cA / vA = cB / vB := by tauto
      simp [calculateConfidence, hv, hr]
  · have hne : ¬ ((1000 : ℝ) = 0 ∨ (1000 : ℝ) = 0) := by norm_num
    have hrates : ¬ ((50 : ℝ) / 1000 = (40 : ℝ) / 1000) := by norm_num
    simp only [calculateConfidence]
    rw [if_neg hne, if_neg hrates]
    refine lt_min (by norm_num) ?_
    have hxnn : (0 : ℝ) ≤ |(50 : ℝ) / 1000 - (40 : ℝ) / 1000| /
        Real.sqrt (standardError ((50 : ℝ) / 1000) 1000 ^ 2 +
          standardError ((40 : ℝ) / 1000) 1000 ^ 2) / Real.sqrt 2 := by
      positivity
    have herf := erf_gt_neg_one hxnn
    linarith

/-- Witness for C9: an empty A-sample yields 0, and the literal scenario
yields a strictly positive confidence. -/
theorem calculateConfidence_spec_witness :
    calculateConfidence 3 0 4 5 = 0 ∧ 0 < calculateConfidence 50 1000 40 1000 :=
  ⟨calculateConfidence_spec.1 3 0 4 5 (Or.inl rfl), calculateConfidence_spec.2.2.1⟩

end FindingMe
